import Mathlib

/-!
Shallow embedding of the highscores service (`src/app`): the tenant registry,
the access guard and the score ledger, modelled as pure functions over an
explicit database state.  Randomly generated values (`public_id`, `api_key`)
and timestamps are passed in as parameters; SQL queries are modelled over
lists of rows.
-/

namespace HighScores

/-- Whitespace characters stripped by Python's `str.strip()` (the members of
`string.whitespace`). -/
def isPySpace (c : Char) : Bool :=
  c == ' ' || c == '\t' || c == '\n' || c == '\r' || c == '\x0b' || c == '\x0c'

/-- Model of Python's `str.strip()`: remove leading and trailing whitespace. -/
def pyStrip (s : String) : String :=
  ⟨((s.data.dropWhile isPySpace).reverse.dropWhile isPySpace).reverse⟩

/-- Comparison of `TEXT` columns used by SQLite's `ORDER BY`: lexicographic
order on the character sequences. -/
def strLe (a b : String) : Prop :=
  a.data ≤ b.data

instance : DecidableRel strLe := fun a b => by
  unfold strLe; infer_instance

/-- Row of table `games` (see `alembic/versions/001_initial_schema.py`). -/
structure Game where
  id : Nat
  public_id : String
  name : String
  email : String
  api_key : String
  created_at : String
deriving DecidableEq

/-- Row of table `highscores`. -/
structure Highscore where
  id : Nat
  game_id : Nat
  player_name : String
  score : Int
  created_at : String
deriving DecidableEq

/-- The persistent store: the two tables plus the autoincrement counters. -/
structure DB where
  games : List Game
  highscores : List Highscore
  next_game_id : Nat
  next_score_id : Nat
deriving DecidableEq

/-- HTTP-level error outcomes (see spec taxonomy: 404 / 401 / 403 / 422). -/
inductive ApiError where
  | notFound
  | unauthorized
  | forbidden
  | validationError
deriving DecidableEq

instance {e a : Type} [DecidableEq e] [DecidableEq a] : DecidableEq (Except e a) := fun x y =>
  match x, y with
  | .error u, .error v =>
    if h : u = v then isTrue (by rw [h]) else isFalse (fun hh => by cases hh; exact h rfl)
  | .error _, .ok _ => isFalse (fun hh => by cases hh)
  | .ok _, .error _ => isFalse (fun hh => by cases hh)
  | .ok u, .ok v =>
    if h : u = v then isTrue (by rw [h]) else isFalse (fun hh => by cases hh; exact h rfl)

/-- `get_game_by_public_id` from `app/database.py`: `SELECT * FROM games WHERE public_id = ?`. -/
def get_game_by_public_id (db : DB) (public_id : String) : Option Game :=
  db.games.find? (fun g => g.public_id == public_id)

/-- `require_admin_token` from `app/auth.py`: 401 unless the header equals the admin secret. -/
def require_admin_token (admin_token : String) (x_admin_token : Option String) :
    Except ApiError Unit :=
  if x_admin_token == some admin_token then .ok () else .error .unauthorized

/-- `verify_game_ownership_or_admin` from `app/auth.py`: resolve the game first
(404 when missing), then accept the admin token, then a truthy matching API key,
otherwise 403. -/
def verify_game_ownership_or_admin (admin_token : String) (db : DB) (public_id : String)
    (x_api_key x_admin_token : Option String) : Except ApiError Game :=
  match get_game_by_public_id db public_id with
  | none => .error .notFound
  | some game =>
    if x_admin_token == some admin_token then .ok game
    else if (match x_api_key with
             | some k => k != "" && k == game.api_key
             | none => false) then .ok game
    else .error .forbidden

/-- Request body of `POST /games` (`GameCreate` in `app/models.py`). -/
structure GameCreate where
  name : String
  email : String
deriving DecidableEq

/-- Response of game creation (`GameOut` in `app/models.py`): includes the API key. -/
structure GameOut where
  public_id : String
  name : String
  email : String
  api_key : String
  created_at : String
deriving DecidableEq

/-- Response for game information (`GameInfo` in `app/models.py`): no sensitive data. -/
structure GameInfo where
  public_id : String
  name : String
  created_at : String
deriving DecidableEq

/-- Request body of a highscore submission (`HighscoreIn` in `app/models.py`). -/
structure HighscoreIn where
  player_name : String
  score : Int
deriving DecidableEq

/-- The pydantic validation contract of `HighscoreIn`:
`player_name` 1–32 characters, `score` in `[0, 1_000_000_000]`. -/
def HighscoreIn.valid (hs : HighscoreIn) : Prop :=
  1 ≤ hs.player_name.length ∧ hs.player_name.length ≤ 32 ∧
    0 ≤ hs.score ∧ hs.score ≤ 1000000000

instance (hs : HighscoreIn) : Decidable hs.valid := by
  unfold HighscoreIn.valid; infer_instance

/-- Response model for a single highscore (`HighscoreOut` in `app/models.py`). -/
structure HighscoreOut where
  player_name : String
  score : Int
  created_at : String
deriving DecidableEq

/-- Response model for a list of highscores (`HighscoreList` in `app/models.py`). -/
structure HighscoreList where
  game_id : String
  highscores : List HighscoreOut
deriving DecidableEq

/-- Projection of a stored row into the response model. -/
def highscoreOut (e : Highscore) : HighscoreOut :=
  ⟨e.player_name, e.score, e.created_at⟩

/-- `create_game` from `app/main.py`: insert a new game row (name trimmed, email
lower-cased) and return the full record including the API key.  The generated
`public_id`, `api_key` and the timestamp are parameters. -/
def create_game (db : DB) (g : GameCreate) (public_id api_key now : String) : GameOut × DB :=
  let game : Game :=
    ⟨db.next_game_id, public_id, pyStrip g.name, g.email.toLower, api_key, now⟩
  (⟨public_id, pyStrip g.name, g.email.toLower, api_key, now⟩,
    { db with games := db.games ++ [game], next_game_id := db.next_game_id + 1 })

/-- Handler body of `submit_highscore` from `app/main.py`: 404 when the game is
unknown, otherwise insert the row with `player_name.strip()` and `int(score)`. -/
def submit_highscore (db : DB) (public_id : String) (hs : HighscoreIn) (now : String) :
    Except ApiError (HighscoreOut × DB) :=
  match get_game_by_public_id db public_id with
  | none => .error .notFound
  | some game =>
    let entry : Highscore :=
      ⟨db.next_score_id, game.id, pyStrip hs.player_name, hs.score, now⟩
    .ok (⟨pyStrip hs.player_name, hs.score, now⟩,
      { db with highscores := db.highscores ++ [entry],
                next_score_id := db.next_score_id + 1 })

/-- The full `POST /games/{public_id}/highscores` route: FastAPI validates the
request body against `HighscoreIn` before the handler runs (HTTP 422 on
failure), then the handler executes. -/
def submit_highscore_route (db : DB) (public_id : String) (hs : HighscoreIn) (now : String) :
    Except ApiError (HighscoreOut × DB) :=
  if hs.valid then submit_highscore db public_id hs now else .error .validationError

/-- Row ordering of the ranking query: `ORDER BY score DESC, created_at ASC`. -/
def scoreOrder (a b : Highscore) : Prop :=
  b.score < a.score ∨ (a.score = b.score ∧ strLe a.created_at b.created_at)

instance : DecidableRel scoreOrder := fun a b => by
  unfold scoreOrder; infer_instance

instance : IsTotal Highscore scoreOrder := by
  constructor
  intro a b
  rcases lt_trichotomy a.score b.score with h | h | h
  · exact Or.inr (Or.inl h)
  · rcases le_total a.created_at.data b.created_at.data with h2 | h2
    · exact Or.inl (Or.inr ⟨h, h2⟩)
    · exact Or.inr (Or.inr ⟨h.symm, h2⟩)
  · exact Or.inl (Or.inl h)

instance : IsTrans Highscore scoreOrder := by
  constructor
  intro a b c hab hbc
  rcases hab with h1 | ⟨e1, s1⟩ <;> rcases hbc with h2 | ⟨e2, s2⟩
  · exact Or.inl (h2.trans h1)
  · exact Or.inl (e2 ▸ h1)
  · exact Or.inl (e1 ▸ h2)
  · exact Or.inr ⟨e1.trans e2, s1.trans s2⟩

/-- The ranking query of `get_highscores`:
`SELECT … WHERE game_id = ? ORDER BY score DESC, created_at ASC LIMIT ?`. -/
def topN (db : DB) (game_id : Nat) (limit : Nat) : List Highscore :=
  ((db.highscores.filter (fun e => e.game_id == game_id)).insertionSort scoreOrder).take limit

/-- Handler body of `get_highscores` from `app/main.py`: 404 when the game is
unknown, otherwise the top-`limit` rows. -/
def get_highscores (db : DB) (public_id : String) (limit : Int) :
    Except ApiError HighscoreList :=
  match get_game_by_public_id db public_id with
  | none => .error .notFound
  | some game => .ok ⟨public_id, (topN db game.id limit.toNat).map highscoreOut⟩

/-- The full `GET /games/{public_id}/highscores` route: the query parameter is
declared `Query(10, ge=1, le=50)`, so an omitted limit defaults to 10 and a
provided limit outside `[1, 50]` is rejected with HTTP 422 before the handler. -/
def get_highscores_route (db : DB) (public_id : String) (limit : Option Int) :
    Except ApiError HighscoreList :=
  if 1 ≤ limit.getD 10 ∧ limit.getD 10 ≤ 50 then get_highscores db public_id (limit.getD 10)
  else .error .validationError

/-- Row ordering of the game listing: `ORDER BY created_at ASC`. -/
def gameOrder (a b : Game) : Prop :=
  strLe a.created_at b.created_at

instance : DecidableRel gameOrder := fun a b => by
  unfold gameOrder; infer_instance

/-- `list_games` from `app/main.py`: admin-only; the token is checked before any
database access, then all games are returned ordered by `created_at` ascending,
projected to `GameInfo` (no `api_key`, no `email`). -/
def list_games (admin_token : String) (db : DB) (x_admin_token : Option String) :
    Except ApiError (List GameInfo) :=
  match require_admin_token admin_token x_admin_token with
  | .error e => .error e
  | .ok _ =>
    .ok ((db.games.insertionSort gameOrder).map (fun g => ⟨g.public_id, g.name, g.created_at⟩))

/-- `get_game` from `app/main.py`: admin-only; the token is checked before the
game is resolved, then 404 when unknown, else the `GameInfo` projection. -/
def get_game (admin_token : String) (db : DB) (public_id : String)
    (x_admin_token : Option String) : Except ApiError GameInfo :=
  match require_admin_token admin_token x_admin_token with
  | .error e => .error e
  | .ok _ =>
    match get_game_by_public_id db public_id with
    | none => .error .notFound
    | some game => .ok ⟨game.public_id, game.name, game.created_at⟩

/-- `delete_highscores` from `app/main.py`: owner-or-admin; deletes every
highscore row of the game and returns the deleted row count (`cur.rowcount`). -/
def delete_highscores (admin_token : String) (db : DB) (public_id : String)
    (x_api_key x_admin_token : Option String) : Except ApiError (Nat × DB) :=
  match verify_game_ownership_or_admin admin_token db public_id x_api_key x_admin_token with
  | .error e => .error e
  | .ok game =>
    .ok (db.highscores.countP (fun e => e.game_id == game.id),
      { db with highscores := db.highscores.filter (fun e => !(e.game_id == game.id)) })

/-- `delete_game` from `app/main.py`: owner-or-admin; deletes the game's
highscore rows and then the game row itself. -/
def delete_game (admin_token : String) (db : DB) (public_id : String)
    (x_api_key x_admin_token : Option String) : Except ApiError (Unit × DB) :=
  match verify_game_ownership_or_admin admin_token db public_id x_api_key x_admin_token with
  | .error e => .error e
  | .ok game =>
    .ok ((), { db with
      highscores := db.highscores.filter (fun e => !(e.game_id == game.id)),
      games := db.games.filter (fun g => !(g.id == game.id)) })

/-! ### Concrete states used by witnesses and examples -/

/-- A registered tenant used in concrete examples. -/
def exGame : Game := ⟨1, "g_ex", "Ex", "ex@mail.com", "sk_ex", "t0"⟩

/-- A second registered tenant, distinct from `exGame`. -/
def exGame2 : Game := ⟨2, "g_two", "Two", "two@mail.com", "sk_two", "t0"⟩

/-- A store with two tenants; the first owns the spec's example scores
`(A,50), (B,90), (C,90)` submitted in that order. -/
def exampleDB : DB :=
  ⟨[exGame, exGame2],
   [⟨1, 1, "A", 50, "t1"⟩, ⟨2, 1, "B", 90, "t2"⟩, ⟨3, 1, "C", 90, "t3"⟩], 3, 4⟩

/-- The freshly migrated, empty store. -/
def emptyDB : DB := ⟨[], [], 1, 1⟩

/-! ### Helper lemmas shared by several claims -/

/-- The tenant lookup reads only the `games` table. -/
theorem lookup_games_eq (db db' : DB) (pid : String) (h : db'.games = db.games) :
    get_game_by_public_id db' pid = get_game_by_public_id db pid := by
  unfold get_game_by_public_id
  rw [h]

/-- The guard reads the store only through the `games` table. -/
theorem verify_games_eq (a : String) (db db' : DB) (pid : String) (k t : Option String)
    (h : db'.games = db.games) :
    verify_game_ownership_or_admin a db' pid k t
      = verify_game_ownership_or_admin a db pid k t := by
  unfold verify_game_ownership_or_admin
  rw [lookup_games_eq db db' pid h]

/-- A successful guard returns exactly the tenant the lookup resolved. -/
theorem verify_ok_lookup (a : String) (db : DB) (pid : String) (k t : Option String)
    (g : Game) (hv : verify_game_ownership_or_admin a db pid k t = .ok g) :
    get_game_by_public_id db pid = some g := by
  cases hl : get_game_by_public_id db pid with
  | none => simp [verify_game_ownership_or_admin, hl] at hv
  | some g0 =>
    simp only [verify_game_ownership_or_admin, hl] at hv
    split at hv
    · injection hv with h; rw [h]
    · split at hv
      · injection hv with h; rw [h]
      · simp at hv

/-- Unfolding of a successful `delete_highscores` call. -/
theorem delete_highscores_ok (a : String) (db : DB) (pid : String) (k t : Option String)
    (n : Nat) (db' : DB) (hd : delete_highscores a db pid k t = .ok (n, db')) :
    ∃ game, get_game_by_public_id db pid = some game ∧
      verify_game_ownership_or_admin a db pid k t = .ok game ∧
      n = db.highscores.countP (fun e => e.game_id == game.id) ∧
      db' = { db with highscores := db.highscores.filter (fun e => !(e.game_id == game.id)) } := by
  unfold delete_highscores at hd
  cases hv : verify_game_ownership_or_admin a db pid k t with
  | error e => rw [hv] at hd; simp at hd
  | ok g =>
    rw [hv] at hd
    simp only [Except.ok.injEq, Prod.mk.injEq] at hd
    exact ⟨g, verify_ok_lookup a db pid k t g hv, rfl, hd.1.symm, hd.2.symm⟩

/-- Unfolding of a successful `delete_game` call. -/
theorem delete_game_ok (a : String) (db : DB) (pid : String) (k t : Option String)
    (db' : DB) (hd : delete_game a db pid k t = .ok ((), db')) :
    ∃ game, get_game_by_public_id db pid = some game ∧
      verify_game_ownership_or_admin a db pid k t = .ok game ∧
      db' = { db with
        highscores := db.highscores.filter (fun e => !(e.game_id == game.id)),
        games := db.games.filter (fun g => !(g.id == game.id)) } := by
  unfold delete_game at hd
  cases hv : verify_game_ownership_or_admin a db pid k t with
  | error e => rw [hv] at hd; simp at hd
  | ok g =>
    rw [hv] at hd
    simp only [Except.ok.injEq, Prod.mk.injEq] at hd
    exact ⟨g, verify_ok_lookup a db pid k t g hv, rfl, hd.2.symm⟩

/-- Rows produced by `topN` are rows of the store owned by the queried game. -/
theorem topN_mem (db : DB) (gid limit : Nat) (e : Highscore) (he : e ∈ topN db gid limit) :
    e ∈ db.highscores ∧ e.game_id = gid := by
  unfold topN at he
  have h1 := List.take_subset _ _ he
  rw [List.mem_insertionSort] at h1
  rcases List.mem_filter.mp h1 with ⟨hmem, hpred⟩
  exact ⟨hmem, by simpa using hpred⟩

/-! ### Claims -/

/-- Claim C1: the owner-or-admin guard is a complete case analysis: unknown
tenant gives NotFound regardless of credentials; otherwise a matching admin
token authorizes; otherwise a provided API key equal to the tenant's key
authorizes (given the registry invariant that stored API keys are nonempty);
otherwise Forbidden — in particular tenant T's key is Forbidden against any
tenant U holding a different key. -/
theorem c1_guard_case_analysis (admin_token : String) (db : DB) (public_id : String)
    (x_api_key x_admin_token : Option String) :
    (get_game_by_public_id db public_id = none →
      verify_game_ownership_or_admin admin_token db public_id x_api_key x_admin_token
        = .error .notFound)
  ∧ (∀ game, get_game_by_public_id db public_id = some game →
      (x_admin_token = some admin_token →
        verify_game_ownership_or_admin admin_token db public_id x_api_key x_admin_token
          = .ok game)
      ∧ (x_admin_token ≠ some admin_token → game.api_key ≠ "" →
          (x_api_key = some game.api_key →
            verify_game_ownership_or_admin admin_token db public_id x_api_key x_admin_token
              = .ok game)
        ∧ (x_api_key ≠ some game.api_key →
            verify_game_ownership_or_admin admin_token db public_id x_api_key x_admin_token
              = .error .forbidden)))
  ∧ (∀ gT gU : Game, get_game_by_public_id db public_id = some gU →
      gT.api_key ≠ gU.api_key → x_admin_token ≠ some admin_token →
      verify_game_ownership_or_admin admin_token db public_id (some gT.api_key) x_admin_token
        = .error .forbidden) := by
  refine ⟨?_, ?_, ?_⟩
  · intro h
    simp [verify_game_ownership_or_admin, h]
  · intro game hg
    refine ⟨?_, ?_⟩
    · intro ht
      simp [verify_game_ownership_or_admin, hg, ht]
    · intro ht hne
      refine ⟨?_, ?_⟩
      · intro hk
        subst hk
        simp [verify_game_ownership_or_admin, hg, ht, hne]
      · intro hk
        cases hx : x_api_key with
        | none => simp [verify_game_ownership_or_admin, hg, ht]
        | some kk =>
          have hkk : kk ≠ game.api_key := by
            intro h
            exact hk (by rw [hx, h])
          simp [verify_game_ownership_or_admin, hg, ht, hkk]
  · intro gT gU hg hne ht
    simp [verify_game_ownership_or_admin, hg, ht, hne]

/-- Concrete instance of C1: tenant one's correct key is Forbidden against
tenant two. -/
theorem c1_guard_case_analysis_witness :
    verify_game_ownership_or_admin "adm" exampleDB "g_two" (some "sk_ex") none
      = .error .forbidden := by
  have h := (c1_guard_case_analysis "adm" exampleDB "g_two" (some "sk_ex") none).2.2
    exGame exGame2 (by decide) (by decide) (by decide)
  exact h

/-- Claim C10: on the admin-only routes the token check runs before tenant
resolution — a wrong or missing admin token yields Unauthorized even for an
unknown `public_id` — while on the owner-or-admin guard an unknown tenant
yields NotFound regardless of credentials (the opposite precedence). -/
theorem c10_admin_precedence (admin_token : String) (db : DB) (public_id : String)
    (x_api_key x_admin_token : Option String)
    (hbad : x_admin_token ≠ some admin_token) :
    get_game admin_token db public_id x_admin_token = .error .unauthorized
  ∧ list_games admin_token db x_admin_token = .error .unauthorized
  ∧ (get_game_by_public_id db public_id = none →
      verify_game_ownership_or_admin admin_token db public_id x_api_key x_admin_token
        = .error .notFound) := by
  refine ⟨?_, ?_, ?_⟩
  · simp [get_game, require_admin_token, hbad]
  · simp [list_games, require_admin_token, hbad]
  · intro h
    simp [verify_game_ownership_or_admin, h]

/-- Concrete instance of C10: a missing admin token on `GET /games/{id}` with an
unknown id gives 401, not 404. -/
theorem c10_admin_precedence_witness :
    get_game "adm" exampleDB "g_unknown" none = .error .unauthorized :=
  (c10_admin_precedence "adm" exampleDB "g_unknown" none none (by decide)).1

/-- Claim C3: a provided limit outside the inclusive range `[1, 50]` is
rejected with a validation error (in particular `limit=0` and `limit=51`),
and an omitted limit defaults to 10. -/
theorem c3_limit_validation (db : DB) (public_id : String) :
    (∀ limit : Int, ¬ (1 ≤ limit ∧ limit ≤ 50) →
      get_highscores_route db public_id (some limit) = .error .validationError)
  ∧ get_highscores_route db public_id (some 0) = .error .validationError
  ∧ get_highscores_route db public_id (some 51) = .error .validationError
  ∧ get_highscores_route db public_id none = get_highscores_route db public_id (some 10) := by
  have hz : ¬ ((1 : Int) ≤ 0 ∧ (0 : Int) ≤ 50) := by decide
  have ho : ¬ ((1 : Int) ≤ 51 ∧ (51 : Int) ≤ 50) := by decide
  refine ⟨?_, ?_, ?_, rfl⟩
  · intro limit h
    simp only [get_highscores_route, Option.getD_some]
    rw [if_neg h]
  · simp only [get_highscores_route, Option.getD_some]
    rw [if_neg hz]
  · simp only [get_highscores_route, Option.getD_some]
    rw [if_neg ho]

/-- Concrete instance of C3: `limit=51` is rejected. -/
theorem c3_limit_validation_witness :
    get_highscores_route exampleDB "g_ex" (some 51) = .error .validationError :=
  (c3_limit_validation exampleDB "g_ex").1 51 (by decide)

/-- Claim C8 is false as stated: an invalid payload submitted to an unknown
`public_id` is rejected by request validation (HTTP 422) before the handler
runs, so the outcome is a validation error, not NotFound. -/
theorem c8_counterexample :
    get_game_by_public_id emptyDB "g_missing" = none
  ∧ submit_highscore_route emptyDB "g_missing" ⟨"", -1⟩ "t9" = .error .validationError
  ∧ (Except.error .validationError : Except ApiError (HighscoreOut × DB)) ≠ .error .notFound :=
  ⟨rfl, by decide, by decide⟩

/-- Claim C8 as amended: submitting to an unknown `public_id` yields NotFound
for every valid payload and a validation error for every invalid payload, and
in neither case is a ScoreEntry created. -/
theorem c8_unknown_tenant (db : DB) (public_id : String) (hs : HighscoreIn) (now : String)
    (h : get_game_by_public_id db public_id = none) :
    (hs.valid → submit_highscore_route db public_id hs now = .error .notFound)
  ∧ (¬ hs.valid → submit_highscore_route db public_id hs now = .error .validationError)
  ∧ ∀ r, submit_highscore_route db public_id hs now ≠ .ok r := by
  refine ⟨?_, ?_, ?_⟩
  · intro hv
    simp [submit_highscore_route, hv, submit_highscore, h]
  · intro hv
    simp [submit_highscore_route, hv]
  · intro r hr
    by_cases hv : hs.valid
    · simp [submit_highscore_route, hv, submit_highscore, h] at hr
    · simp [submit_highscore_route, hv] at hr

/-- Concrete instance of the amended C8: a valid payload to an unknown tenant
yields NotFound. -/
theorem c8_unknown_tenant_witness :
    submit_highscore_route emptyDB "g_missing" ⟨"bob", 5⟩ "t9" = .error .notFound :=
  (c8_unknown_tenant emptyDB "g_missing" ⟨"bob", 5⟩ "t9" (by decide)).1 (by decide)

/-- Claim C6: DeleteAll removes all and only the tenant's entries, returns the
count removed, leaves the `games` table unchanged, and is idempotent: a second
call returns 0 and a call on a tenant with zero entries returns 0 leaving the
store unchanged. -/
theorem c6_delete_all (admin_token : String) (db : DB) (public_id : String)
    (x_api_key x_admin_token : Option String) (game : Game) (n : Nat) (db' : DB)
    (hg : get_game_by_public_id db public_id = some game)
    (hd : delete_highscores admin_token db public_id x_api_key x_admin_token = .ok (n, db')) :
    n = db.highscores.countP (fun e => e.game_id == game.id)
  ∧ (∀ e ∈ db'.highscores, e ∈ db.highscores ∧ ¬ e.game_id = game.id)
  ∧ (∀ e ∈ db.highscores, ¬ e.game_id = game.id → e ∈ db'.highscores)
  ∧ db'.games = db.games
  ∧ delete_highscores admin_token db' public_id x_api_key x_admin_token = .ok (0, db')
  ∧ (n = 0 → db' = db) := by
  rcases delete_highscores_ok _ _ _ _ _ _ _ hd with ⟨g2, hg2, hv2, hn, hdb⟩
  have hgg : g2 = game := by
    have h2 := hg2.symm.trans hg
    injection h2
  subst hgg
  have hgames : db'.games = db.games := by rw [hdb]
  refine ⟨hn, ?_, ?_, hgames, ?_, ?_⟩
  · intro e he
    rw [hdb] at he
    rcases List.mem_filter.mp he with ⟨h1, h2⟩
    exact ⟨h1, by simpa using h2⟩
  · intro e he hne
    rw [hdb]
    exact List.mem_filter.mpr ⟨he, by simpa using hne⟩
  · have hver : verify_game_ownership_or_admin admin_token db' public_id x_api_key x_admin_token
        = .ok g2 := by
      rw [verify_games_eq admin_token db db' public_id x_api_key x_admin_token hgames]
      exact hv2
    unfold delete_highscores
    rw [hver]
    show Except.ok (db'.highscores.countP (fun e => e.game_id == g2.id),
      { db' with highscores := db'.highscores.filter (fun e => !(e.game_id == g2.id)) })
        = Except.ok (0, db')
    have h1 : db'.highscores.countP (fun e => e.game_id == g2.id) = 0 := by
      rw [hdb]
      rw [List.countP_eq_zero]
      intro e he
      rcases List.mem_filter.mp he with ⟨_, h⟩
      simpa using h
    have h2 : db'.highscores.filter (fun e => !(e.game_id == g2.id)) = db'.highscores := by
      rw [List.filter_eq_self]
      intro e he
      rw [hdb] at he
      rcases List.mem_filter.mp he with ⟨_, h⟩
      simpa using h
    rw [h1, h2]
  · intro h0
    rw [hdb]
    have : db.highscores.filter (fun e => !(e.game_id == g2.id)) = db.highscores := by
      rw [List.filter_eq_self]
      intro e he
      rw [h0] at hn
      have := (List.countP_eq_zero.mp hn.symm) e he
      simpa using this
    rw [this]

/-- Concrete instance of C6: deleting the three example entries returns 3, and
an immediately repeated DeleteAll returns 0. -/
theorem c6_delete_all_witness :
    (3 : Nat) = exampleDB.highscores.countP (fun e => e.game_id == exGame.id)
  ∧ delete_highscores "adm" ⟨[exGame, exGame2], [], 3, 4⟩ "g_ex" (some "sk_ex") none
      = .ok (0, ⟨[exGame, exGame2], [], 3, 4⟩) := by
  have h := c6_delete_all "adm" exampleDB "g_ex" (some "sk_ex") none exGame 3
    ⟨[exGame, exGame2], [], 3, 4⟩ (by decide) (by decide)
  exact ⟨h.1, h.2.2.2.2.1⟩

/-- Claim C7: DeleteAll and DeleteTenantCascade touch only the targeted
tenant's data — every entry of any other tenant and every other tenant record
is preserved, and nothing new appears. -/
theorem c7_data_isolation (admin_token : String) (db : DB) (public_id : String)
    (x_api_key x_admin_token : Option String) (game : Game) (n : Nat) (db1 db2 : DB)
    (hg : get_game_by_public_id db public_id = some game)
    (h1 : delete_highscores admin_token db public_id x_api_key x_admin_token = .ok (n, db1))
    (h2 : delete_game admin_token db public_id x_api_key x_admin_token = .ok ((), db2)) :
    (∀ e ∈ db.highscores, ¬ e.game_id = game.id → e ∈ db1.highscores ∧ e ∈ db2.highscores)
  ∧ (∀ e ∈ db1.highscores, e ∈ db.highscores)
  ∧ (∀ e ∈ db2.highscores, e ∈ db.highscores)
  ∧ db1.games = db.games
  ∧ (∀ g ∈ db.games, ¬ g.id = game.id → g ∈ db2.games)
  ∧ (∀ g ∈ db2.games, g ∈ db.games) := by
  rcases delete_highscores_ok _ _ _ _ _ _ _ h1 with ⟨ga, hga, _, _, hdb1⟩
  rcases delete_game_ok _ _ _ _ _ _ h2 with ⟨gb, hgb, _, hdb2⟩
  have hgga : ga = game := by
    have h := hga.symm.trans hg
    injection h
  have hggb : gb = game := by
    have h := hgb.symm.trans hg
    injection h
  subst hgga
  subst hggb
  refine ⟨?_, ?_, ?_, by rw [hdb1], ?_, ?_⟩
  · intro e he hne
    constructor
    · rw [hdb1]
      exact List.mem_filter.mpr ⟨he, by simpa using hne⟩
    · rw [hdb2]
      exact List.mem_filter.mpr ⟨he, by simpa using hne⟩
  · intro e he
    rw [hdb1] at he
    exact List.mem_of_mem_filter he
  · intro e he
    rw [hdb2] at he
    exact List.mem_of_mem_filter he
  · intro g hgm hne
    rw [hdb2]
    exact List.mem_filter.mpr ⟨hgm, by simpa using hne⟩
  · intro g hgm
    rw [hdb2] at hgm
    exact List.mem_of_mem_filter hgm

/-- Concrete instance of C7: deleting tenant one leaves tenant two's record in
place. -/
theorem c7_data_isolation_witness :
    exGame2 ∈ (⟨[exGame2], [], 3, 4⟩ : DB).games
  ∧ (⟨[exGame, exGame2], [], 3, 4⟩ : DB).games = exampleDB.games := by
  have h := c7_data_isolation "adm" exampleDB "g_ex" none (some "adm") exGame 3
    ⟨[exGame, exGame2], [], 3, 4⟩ ⟨[exGame2], [], 3, 4⟩ (by decide) (by decide) (by decide)
  exact ⟨h.2.2.2.2.1 exGame2 (by decide) (by decide), h.2.2.2.1⟩

/-- Claim C5: after a successful cascade delete, looking the tenant up by
`public_id` returns NotFound, a TopN query on that `public_id` (for any valid
limit) returns NotFound rather than an empty list, and none of the tenant's
entries remain.  Uses the schema invariant that `public_id` is unique. -/
theorem c5_cascade (admin_token : String) (db : DB) (public_id : String)
    (x_api_key x_admin_token : Option String) (db' : DB)
    (hnd : (db.games.map Game.public_id).Nodup)
    (hd : delete_game admin_token db public_id x_api_key x_admin_token = .ok ((), db')) :
    get_game_by_public_id db' public_id = none
  ∧ (∀ limit : Int, 1 ≤ limit → limit ≤ 50 →
      get_highscores_route db' public_id (some limit) = .error .notFound)
  ∧ (∀ game, get_game_by_public_id db public_id = some game →
      ∀ e ∈ db'.highscores, ¬ e.game_id = game.id) := by
  rcases delete_game_ok _ _ _ _ _ _ hd with ⟨game, hg, hv, hdb⟩
  have hmemg : game ∈ db.games := List.mem_of_find?_eq_some hg
  have hpidg : game.public_id = public_id := by
    have := List.find?_some hg
    simpa using this
  have hlook : get_game_by_public_id db' public_id = none := by
    rw [hdb]
    unfold get_game_by_public_id
    rw [List.find?_eq_none]
    intro g hgmem
    rcases List.mem_filter.mp hgmem with ⟨hmem, hid⟩
    simp only [beq_iff_eq]
    intro hpid
    have hsame : g = game :=
      List.inj_on_of_nodup_map hnd hmem hmemg (by rw [hpid, hpidg])
    rw [hsame] at hid
    simp at hid
  refine ⟨hlook, ?_, ?_⟩
  · intro limit hl1 hl2
    simp only [get_highscores_route, Option.getD_some]
    rw [if_pos ⟨hl1, hl2⟩]
    simp [get_highscores, hlook]
  · intro g hg2 e he
    have hsame : game = g := by
      have h := hg.symm.trans hg2
      injection h
    rw [hdb] at he
    rcases List.mem_filter.mp he with ⟨_, h⟩
    rw [← hsame]
    simpa using h

/-- Concrete instance of C5: after cascading away tenant one, both Lookup and
TopN on its `public_id` return NotFound. -/
theorem c5_cascade_witness :
    get_game_by_public_id (⟨[exGame2], [], 3, 4⟩ : DB) "g_ex" = none
  ∧ get_highscores_route (⟨[exGame2], [], 3, 4⟩ : DB) "g_ex" (some 10) = .error .notFound := by
  have h := c5_cascade "adm" exampleDB "g_ex" none (some "adm") ⟨[exGame2], [], 3, 4⟩
    (by decide) (by decide)
  exact ⟨h.1, h.2.1 10 (by decide) (by decide)⟩

/-- Claim C2: TopN returns up to `limit` of the tenant's entries sorted by
score descending with ties broken by `created_at` ascending; all returned rows
belong to the tenant; with fewer entries than `limit`, exactly all entries are
returned; and on the spec's example `{(A,50),(B,90),(C,90)}`, `TopN(limit=2)`
returns `[B(90), C(90)]`. -/
theorem c2_topn_ranking (db : DB) (public_id : String) (game : Game) (limit : Int)
    (hg : get_game_by_public_id db public_id = some game)
    (hl : 1 ≤ limit ∧ limit ≤ 50) :
    (∃ r : HighscoreList,
      get_highscores_route db public_id (some limit) = .ok r ∧
      r.game_id = public_id ∧
      r.highscores.Pairwise (fun a b =>
        b.score < a.score ∨ (a.score = b.score ∧ strLe a.created_at b.created_at)) ∧
      (∀ o ∈ r.highscores, ∃ e ∈ db.highscores, e.game_id = game.id ∧ o = highscoreOut e) ∧
      r.highscores.length
        = min limit.toNat (db.highscores.countP (fun e => e.game_id == game.id)) ∧
      (db.highscores.countP (fun e => e.game_id == game.id) ≤ limit.toNat →
        r.highscores.Perm
          ((db.highscores.filter (fun e => e.game_id == game.id)).map highscoreOut)))
  ∧ get_highscores_route exampleDB "g_ex" (some 2)
      = .ok ⟨"g_ex", [⟨"B", 90, "t2"⟩, ⟨"C", 90, "t3"⟩]⟩ := by
  constructor
  · refine ⟨⟨public_id, (topN db game.id limit.toNat).map highscoreOut⟩, ?_, rfl, ?_, ?_, ?_, ?_⟩
    · simp only [get_highscores_route, Option.getD_some]
      rw [if_pos hl]
      simp [get_highscores, hg]
    · rw [List.pairwise_map]
      have hsorted : ((db.highscores.filter (fun e => e.game_id == game.id)).insertionSort
          scoreOrder).Pairwise scoreOrder :=
        List.sorted_insertionSort scoreOrder _
      exact hsorted.sublist (List.take_sublist _ _)
    · intro o ho
      rcases List.mem_map.mp ho with ⟨e, he, rfl⟩
      have h2 := topN_mem db game.id limit.toNat e he
      exact ⟨e, h2.1, h2.2, rfl⟩
    · rw [List.length_map]
      unfold topN
      rw [List.length_take, List.length_insertionSort, ← List.countP_eq_length_filter]
    · intro hle
      unfold topN
      have hlen : ((db.highscores.filter (fun e => e.game_id == game.id)).insertionSort
          scoreOrder).length ≤ limit.toNat := by
        rw [List.length_insertionSort, ← List.countP_eq_length_filter]
        exact hle
      rw [List.take_of_length_le hlen]
      exact (List.perm_insertionSort scoreOrder _).map highscoreOut
  · decide

/-- Concrete instance of C2: the spec's worked tie-break example. -/
theorem c2_topn_ranking_witness :
    get_highscores_route exampleDB "g_ex" (some 2)
      = .ok ⟨"g_ex", [⟨"B", 90, "t2"⟩, ⟨"C", 90, "t3"⟩]⟩ :=
  (c2_topn_ranking exampleDB "g_ex" exGame 2 (by decide) (by decide)).2

/-- Every row of a successful TopN response is the projection of a stored row. -/
theorem get_highscores_route_ok (db : DB) (pid : String) (lim : Option Int)
    (r : HighscoreList) (h : get_highscores_route db pid lim = .ok r) :
    ∀ o ∈ r.highscores, ∃ e ∈ db.highscores, o = highscoreOut e := by
  unfold get_highscores_route at h
  split at h
  · cases hl : get_game_by_public_id db pid with
    | none => simp [get_highscores, hl] at h
    | some game =>
      simp only [get_highscores, hl, Except.ok.injEq] at h
      subst h
      intro o ho
      rcases List.mem_map.mp ho with ⟨e, he, rfl⟩
      exact ⟨e, (topN_mem db game.id _ e he).1, rfl⟩
  · simp at h

/-- Claim C9: a valid submission whose player name carries surrounding
whitespace is returned trimmed, stored trimmed (with the coerced score and the
stamped timestamp), and every later TopN response row is the projection of a
stored row — hence returns the trimmed name. -/
theorem c9_trim_roundtrip (db : DB) (public_id : String) (hs : HighscoreIn) (now : String)
    (game : Game) (out : HighscoreOut) (db' : DB)
    (hws : pyStrip hs.player_name ≠ hs.player_name)
    (hv : hs.valid)
    (hg : get_game_by_public_id db public_id = some game)
    (hr : submit_highscore_route db public_id hs now = .ok (out, db')) :
    out = ⟨pyStrip hs.player_name, hs.score, now⟩
  ∧ db'.highscores = db.highscores
      ++ [⟨db.next_score_id, game.id, pyStrip hs.player_name, hs.score, now⟩]
  ∧ (∀ lim r, get_highscores_route db' public_id lim = .ok r →
      ∀ o ∈ r.highscores, ∃ e ∈ db'.highscores, o = highscoreOut e) := by
  have hsub : submit_highscore db public_id hs now = .ok (out, db') := by
    unfold submit_highscore_route at hr
    rw [if_pos hv] at hr
    exact hr
  simp only [submit_highscore, hg, Except.ok.injEq, Prod.mk.injEq] at hsub
  refine ⟨hsub.1.symm, ?_, ?_⟩
  · rw [← hsub.2]
  · intro lim r hroute
    exact get_highscores_route_ok db' public_id lim r hroute

/-- Concrete instance of C9: submitting `" bob "` stores and returns `"bob"`. -/
theorem c9_trim_roundtrip_witness :
    (⟨"bob", 7, "t9"⟩ : HighscoreOut) = ⟨pyStrip " bob ", 7, "t9"⟩
  ∧ (⟨[exGame, exGame2],
      [⟨1, 1, "A", 50, "t1"⟩, ⟨2, 1, "B", 90, "t2"⟩, ⟨3, 1, "C", 90, "t3"⟩,
       ⟨4, 1, "bob", 7, "t9"⟩], 3, 5⟩ : DB).highscores
      = exampleDB.highscores ++ [⟨4, 1, pyStrip " bob ", 7, "t9"⟩] := by
  have h := c9_trim_roundtrip exampleDB "g_ex" ⟨" bob ", 7⟩ "t9" exGame ⟨"bob", 7, "t9"⟩
    ⟨[exGame, exGame2],
      [⟨1, 1, "A", 50, "t1"⟩, ⟨2, 1, "B", 90, "t2"⟩, ⟨3, 1, "C", 90, "t3"⟩,
       ⟨4, 1, "bob", 7, "t9"⟩], 3, 5⟩
    (by decide) (by decide) (by decide) (by decide)
  exact ⟨h.1, h.2.1⟩

/-- Rewriting of each tenant's secret columns (`api_key`, `email`), leaving
the public columns untouched. -/
def scrubSecrets (fk fe : Game → String) (db : DB) : DB :=
  { db with games := db.games.map (fun g => { g with api_key := fk g, email := fe g }) }

/-- Claim C4: the tenant's `api_key` appears only in the Register (create)
response: the create response does expose the generated key, while the ListAll
and single-tenant Get responses are unchanged under arbitrary rewriting of
every stored `api_key` and `email` — they reveal only `public_id`, `name` and
`created_at`. -/
theorem c4_api_key_secrecy (admin_token : String) (db : DB) (tok : Option String)
    (fk fe : Game → String) (pid : String) (gc : GameCreate) (npid key now : String) :
    list_games admin_token (scrubSecrets fk fe db) tok = list_games admin_token db tok
  ∧ get_game admin_token (scrubSecrets fk fe db) pid tok = get_game admin_token db pid tok
  ∧ (create_game db gc npid key now).1.api_key = key := by
  have hproj : ((fun g : Game => GameInfo.mk g.public_id g.name g.created_at) ∘
      (fun g : Game => { g with api_key := fk g, email := fe g }))
        = fun g : Game => GameInfo.mk g.public_id g.name g.created_at :=
    funext (fun g => rfl)
  have hfind : ∀ l : List Game,
      (l.map (fun g => { g with api_key := fk g, email := fe g })).find?
          (fun g => g.public_id == pid)
        = Option.map (fun g : Game => { g with api_key := fk g, email := fe g })
            (l.find? (fun g => g.public_id == pid)) := by
    intro l
    induction l with
    | nil => rfl
    | cons a t ih =>
      simp only [List.map_cons, List.find?]
      cases h : (a.public_id == pid) with
      | false => simpa [h] using ih
      | true => simp [h]
  refine ⟨?_, ?_, rfl⟩
  · unfold list_games
    cases hta : require_admin_token admin_token tok with
    | error e => rfl
    | ok u =>
      simp only [scrubSecrets, Except.ok.injEq]
      rw [← List.map_insertionSort gameOrder gameOrder
        (fun g : Game => { g with api_key := fk g, email := fe g }) db.games
        (fun a _ b _ => Iff.rfl)]
      rw [List.map_map, hproj]
  · unfold get_game
    cases hta : require_admin_token admin_token tok with
    | error e => rfl
    | ok u =>
      have hlk : get_game_by_public_id (scrubSecrets fk fe db) pid
          = Option.map (fun g : Game => { g with api_key := fk g, email := fe g })
              (get_game_by_public_id db pid) := hfind db.games
      rw [hlk]
      cases get_game_by_public_id db pid with
      | none => rfl
      | some g => rfl

end HighScores
